import Mathlib

namespace Kahooter

/-! Shallow embedding of the Kahooter bot swarm (bot.py, manager.py,
chromedriver_manager.py, __main__.py).  Browser interaction is modelled by
explicit environment parameters: page states indexed by discrete polling time,
boolean outcomes for element waits, and lists of pre-drawn random numbers.
Loops of the source are embedded with explicit fuel (or structural recursion
over the supplied random draws); a result of `none` means the loop is still
running after the given number of iterations. -/

/-- Outcome classification of Bot.send_name (bot.py, SendNameStatus enum). -/
inductive SendNameStatus
  | success
  | already_exists
  | other_error
deriving DecidableEq

/-- Exceptions raised by the browser-automation driver that the embedded code
can observe (bot.py imports). -/
inductive SeleniumError
  | timeoutException
  | elementClickIntercepted
deriving DecidableEq

/-- Model of the name-submission loop inside Bot.prepare (bot.py lines 48-56).
`oracle n` is the SendNameStatus returned by the (n+1)-st call to send_name
(the mocked join backend).  On already_exists the loop requests a new identity
and re-enters; on other_error it returns false; on success it returns true.
The returned Nat is the total number of send_name attempts made. -/
def nameLoop (oracle : Nat → SendNameStatus) : Nat → Nat → Option (Bool × Nat)
  | 0, _ => none
  | fuel + 1, attempt =>
    match oracle attempt with
    | .already_exists => nameLoop oracle fuel (attempt + 1)
    | .other_error => some (false, attempt + 1)
    | .success => some (true, attempt + 1)

/-- Model of Bot.join_lobby (bot.py lines 76-82): a 5-second bounded wait for
the game-input field.  `gameInputFound` says whether the field appears within
the bound; when it does not, WebDriverWait.until raises TimeoutException, which
join_lobby does not catch. -/
def join_lobby (gameInputFound : Bool) : Except SeleniumError Unit :=
  if gameInputFound then .ok () else .error .timeoutException

/-- Model of Bot.prepare (bot.py lines 43-59).  prepare calls open_url and
join_lobby with no exception handler, then runs the name-submission loop.
The value `.ok (some b)` is a normal return of `b`; `.ok none` means the name
loop was still running after `fuel` iterations; `.error e` means an uncaught
driver exception propagated out of prepare to its caller. -/
def prepare (gameInputFound : Bool) (oracle : Nat → SendNameStatus) (fuel : Nat) :
    Except SeleniumError (Option Bool) :=
  match join_lobby gameInputFound with
  | .error e => .error e
  | .ok _ =>
    match nameLoop oracle fuel 0 with
    | none => .ok none
    | some (b, _) => .ok (some b)

/-- One observable state of the browser page at a polling instant: whether the
current URL contains a game-over marker ("gameover" or "ranking"), whether it
contains "gameblock", and whether the answer-option buttons are present (with
their count). -/
structure Page where
  gameover : Bool
  gameblock : Bool
  answerOptions : Option Nat
deriving DecidableEq

/-- Model of Bot.check_game_over (bot.py lines 129-133). -/
def check_game_over (p : Page) : Bool := p.gameover

/-- Model of the option-polling loop at the top of Bot.vote (bot.py lines
103-112): repeat short bounded waits for the answer buttons, looping on
timeout, until either game over is observed (result `(t, none)`) or the
buttons are found (result `(t, some count)`).  The loop reads only the page;
it never reads the voting flag. -/
def pollAnswers (env : Nat → Page) : Nat → Nat → Option (Nat × Option Nat)
  | 0, _ => none
  | fuel + 1, t =>
    if check_game_over (env t) then some (t, none)
    else
      match (env t).answerOptions with
      | some count => some (t, some count)
      | none => pollAnswers env fuel (t + 1)

/-- Model of Bot.vote (bot.py lines 102-123): poll for the answer options,
re-check game over, then click the chosen answer and return.  The result is
the polling time at which vote returns (`none`: still polling after `fuel`
steps). -/
def vote (env : Nat → Page) (fuel t : Nat) : Option Nat :=
  match pollAnswers env fuel t with
  | none => none
  | some (t1, none) => some t1
  | some (t1, some _count) =>
    if check_game_over (env t1) then some t1
    else some (t1 + 1)

/-- Model of Bot.wait_for_new_round (bot.py lines 125-127): wait in 0.5 s
steps while the page is neither game-over nor on a "gameblock" URL.  The loop
reads only the page; it never reads the voting flag. -/
def wait_for_new_round (env : Nat → Page) : Nat → Nat → Option Nat
  | 0, _ => none
  | fuel + 1, t =>
    if check_game_over (env t) || (env t).gameblock then some t
    else wait_for_new_round env fuel (t + 1)

/-- Model of Bot.vote_loop (bot.py lines 61-68).  `voting t` is the value of
the agent's voting flag at polling time `t` (an external stop signal clears
it).  The flag is read exactly where the source reads it: in the guard of the
outer while, between iterations.  The result is the time at which the loop
exits (`none`: still running after `fuel` outer or inner steps). -/
def vote_loop (env : Nat → Page) (voting : Nat → Bool) : Nat → Nat → Option Nat
  | 0, _ => none
  | fuel + 1, t =>
    if !check_game_over (env t) && voting t then
      match vote env fuel t with
      | none => none
      | some t1 =>
        match wait_for_new_round env fuel t1 with
        | none => none
        | some t2 => vote_loop env voting fuel t2
    else some t

/-- Model of Python's str.rjust(4, "0"): left-pad the string with the
character '0' up to length 4. -/
def rjust4 (s : String) : String :=
  String.mk (List.replicate (4 - s.length) '0') ++ s

/-- The candidate display name built from one random draw `r` in 0..9999
(manager.py line 89): "user" followed by the zero-padded decimal suffix. -/
def mkUsername (r : Nat) : String := "user" ++ rjust4 (toString r)

/-- Model of BotManager.__generate_unused_username (manager.py lines 87-94).
The random draws of random.randint(0, 9999) are supplied as a list, each one
reduced mod 10000 to match randint's inclusive range; the while loop
re-evaluates its condition, drawing a fresh candidate each time, until the
candidate is not in the generated list; the candidate is then appended to the
list before being returned.  `none` means the loop consumed every supplied
draw without returning. -/
def generate_unused_username : List Nat → List String → Option (String × List String × List Nat)
  | [], _ => none
  | r :: rs, generated =>
    let username := mkUsername (r % 10000)
    if username ∈ generated then generate_unused_username rs generated
    else some (username, generated ++ [username], rs)

/-- `n` calls of the allocator, threading the generated-name list and the
remaining random draws, as done once per bot in BotManager.__create_bot
(manager.py lines 183-192).  This models the special case in which the calls
do not interleave: each call's membership check and append complete before
the next call's check runs.  The source actually invokes the allocator from
concurrent ThreadPool workers (manager.py lines 50-51 and, via
request_new_name_function, lines 55-56); the interleaved execution is
modelled by allocStep and allocRace below. -/
def allocateNames : Nat → List Nat → List String → Option (List String × List Nat)
  | 0, rs, generated => some (generated, rs)
  | n + 1, rs, generated =>
    match generate_unused_username rs generated with
    | none => none
    | some (_, g2, rs2) => allocateNames n rs2 g2

/-- The state of one thread executing one call of
BotManager.__generate_unused_username.  Under the CPython GIL the while
condition - one fresh draw plus the membership test on the shared list - is
one atomic action, and list.append is another, but the scheduler may switch
threads between the passed check and the append; there is no lock guarding
the pair. -/
inductive AllocThread
  | ready (draws : List Nat)
  | passed (username : String) (draws : List Nat)
  | done (username : String)
  | looping
deriving DecidableEq

/-- One atomic step of a thread inside __generate_unused_username against the
shared generated_usernames list: from ready, draw a candidate and test
membership (staying ready on a collision, moving to passed on a fresh name,
to looping when the supplied draws are exhausted); from passed, append the
candidate to the shared list and return it. -/
def allocStep (g : List String) : AllocThread → List String × AllocThread
  | .ready [] => (g, .looping)
  | .ready (r :: rs) =>
    let username := mkUsername (r % 10000)
    if username ∈ g then (g, .ready rs)
    else (g, .passed username rs)
  | .passed u _ => (g ++ [u], .done u)
  | .done u => (g, .done u)
  | .looping => (g, .looping)

/-- Two concurrent calls of __generate_unused_username on the shared list
`g`, driven by a schedule: `true` steps the first thread, `false` the second.
Returns the final shared list and both thread states. -/
def allocRace (sched : List Bool) (g : List String) (tA tB : AllocThread) :
    List String × AllocThread × AllocThread :=
  match sched with
  | [] => (g, tA, tB)
  | a :: rest =>
    if a then
      let s := allocStep g tA
      allocRace rest s.1 s.2 tB
    else
      let s := allocStep g tB
      allocRace rest s.1 tA s.2

/-- Every candidate the allocator can emit: the image of 0..9999 under
mkUsername, the full candidate space of manager.py line 89. -/
def allUsernames : List String := (List.range 10000).map mkUsername

/-- Model of random.randint(a, b) driven by a pre-drawn value `r`: uniform on
the inclusive range a..b, realised as a + r % (b + 1 - a). -/
def randint (r a b : Nat) : Nat := a + r % (b + 1 - a)

/-- The vote-choice function handed to each Bot in BotManager.__create_bot
(manager.py line 190): `lambda answers_count: random.randint(0, answers_count - 1)`. -/
def vote_function (r answersCount : Nat) : Nat := randint r 0 (answersCount - 1)

/-- Model of BotManager.cleanup (manager.py lines 82-85): iterate over the
bot indices in order, calling driver.quit() on each.  `closeOk i` says whether
agent `i`'s quit() returns normally; there is no exception handler, so the
first raising quit() stops the loop and the exception propagates.  Returns
the list of indices on which quit() was invoked, and the index whose quit()
raised (propagating out of cleanup), if any. -/
def cleanup (closeOk : Nat → Bool) : List Nat → List Nat × Option Nat
  | [] => ([], none)
  | i :: rest =>
    if closeOk i then
      let r := cleanup closeOk rest
      (i :: r.1, r.2)
    else ([i], some i)

/-- The externally observable events of one BotManager.run invocation. -/
structure RunTrace where
  /-- indices of the bots on which Thread.start (hence vote_loop) was called -/
  votingStarted : List Nat
  /-- indices on which driver.quit() was invoked during cleanup, in order -/
  quitCalls : List Nat
  /-- the (succeeded, total) counts logged when only some bots joined -/
  partialSuccessCount : Option (Nat × Nat)
  /-- whether the run logged total join failure and returned early -/
  totalFailure : Bool
  /-- index whose driver.quit() raised, the exception propagating out of run -/
  raisedFrom : Option Nat
deriving DecidableEq

/-- Model of BotManager.run (manager.py lines 48-80) after the prepare phase
results are in.  `prepareResults` is the ordered list of booleans returned by
pool.map of Bot.prepare; `closeOk` describes each driver.quit().  When no bot
joined, run logs total failure, calls cleanup and returns; otherwise it logs
the partial count when not all joined, then starts voting with
`for bot in self.bots: bot.start()` - over the full bot list - joins the
threads, and calls cleanup. -/
def run (prepareResults : List Bool) (closeOk : Nat → Bool) : RunTrace :=
  let bots := List.range prepareResults.length
  if !prepareResults.any id then
    let c := cleanup closeOk bots
    ⟨[], c.1, none, true, c.2⟩
  else
    let partialCnt :=
      if !prepareResults.all id then
        some (prepareResults.count true, prepareResults.length)
      else none
    let c := cleanup closeOk bots
    ⟨bots, c.1, partialCnt, false, c.2⟩

/-- Model of the process exit code of `python -m kahooter` (__main__.py lines
54-64).  main never calls sys.exit: when BotManager.__init__ caught a
provisioning error it returned before setting self.generated_usernames, and
manager.run() then dies with an uncaught AttributeError, making the
interpreter exit 1; otherwise the exit code is 0 unless an exception (such as
a raising driver.quit() in cleanup) propagates out of run. -/
def mainExitCode (provisionOk : Bool) (prepareResults : List Bool) (closeOk : Nat → Bool) : Nat :=
  if !provisionOk then 1
  else
    match (run prepareResults closeOk).raisedFrom with
    | some _ => 1
    | none => 0

/-- Errors observable from the file-system model of chromedriver_manager. -/
inductive FSError
  | fileNotFound
deriving DecidableEq

/-- Model of adapt_executable_name (chromedriver_manager.py lines 112-115). -/
def adapt_executable_name (isWindows : Bool) (name : String) : String :=
  if isWindows then name ++ ".exe" else name

/-- Model of get_executable_path (chromedriver_manager.py lines 118-119);
os.path.join is modelled with the "/" separator. -/
def get_executable_path (isWindows : Bool) (directory version : String) : String :=
  directory ++ "/" ++ adapt_executable_name isWindows version

/-- Model of os.path.getsize over a file system mapping paths to sizes:
raises (FileNotFoundError, an OSError) when the path does not exist. -/
def getsize (fs : String → Option Nat) (path : String) : Except FSError Nat :=
  match fs path with
  | none => .error .fileNotFound
  | some sz => .ok sz

/-- Model of should_download (chromedriver_manager.py lines 122-128) with the
chrome version already resolved and the remote chromedriver size
(Content-Length) supplied: compares the remote size with
os.path.getsize(get_executable_path(directory, version)); the getsize
exception is not caught. -/
def should_download (fs : String → Option Nat) (remoteSize : Nat) (isWindows : Bool)
    (directory version : String) : Except FSError Bool :=
  match getsize fs (get_executable_path isWindows directory version) with
  | .error e => .error e
  | .ok sz => .ok (remoteSize != sz)

/-- Outcome of the provisioning part of BotManager.__init__. -/
structure InitOutcome where
  /-- the except branch ran: "Failed to download chromedriver" was logged -/
  provisionFailed : Bool
  /-- install reached its download branch (network retrieval attempted) -/
  downloadAttempted : Bool
deriving DecidableEq

/-- Model of BotManager.__init__ provisioning (manager.py lines 35-43) with
install (chromedriver_manager.py lines 131-145): __init__ first calls
should_download(".chromedriver") for the log message, then install calls
should_download again and downloads only when it returns true or re_download
is set; any exception is caught by __init__ and reported as provisioning
failure. -/
def managerInit (fs : String → Option Nat) (remoteSize : Nat) (isWindows : Bool)
    (version : String) (re_download : Bool) : InitOutcome :=
  match should_download fs remoteSize isWindows ".chromedriver" version with
  | .error _ => ⟨true, false⟩
  | .ok _ =>
    match should_download fs remoteSize isWindows ".chromedriver" version with
    | .error _ => ⟨true, false⟩
    | .ok sd => ⟨false, sd || re_download⟩

/-! Helper lemmas shared by the claim theorems. -/

/-- When every quit() returns normally, cleanup invokes quit once per index in
order and nothing propagates. -/
theorem cleanup_all_ok (closeOk : Nat → Bool) :
    ∀ l : List Nat, (∀ i ∈ l, closeOk i = true) → cleanup closeOk l = (l, none) := by
  intro l
  induction l with
  | nil => intro _; rfl
  | cons i rest ih =>
    intro h
    have hi : closeOk i = true := h i (List.mem_cons_self i rest)
    have hrest := ih fun j hj => h j (List.mem_cons_of_mem i hj)
    simp [cleanup, hi, hrest]

/-- The name loop returns true after exactly j + 1 attempts when the first j
attempts collide and attempt j succeeds. -/
theorem nameLoop_success (oracle : Nat → SendNameStatus) :
    ∀ (j a fuel : Nat), (∀ i, i < j → oracle (a + i) = .already_exists) →
      oracle (a + j) = .success → j < fuel →
      nameLoop oracle fuel a = some (true, a + j + 1) := by
  intro j
  induction j with
  | zero =>
    intro a fuel _ hs hf
    obtain ⟨f, rfl⟩ : ∃ f, fuel = f + 1 := ⟨fuel - 1, by omega⟩
    rw [Nat.add_zero] at hs
    simp [nameLoop, hs]
  | succ j ih =>
    intro a fuel hc hs hf
    obtain ⟨f, rfl⟩ : ∃ f, fuel = f + 1 := ⟨fuel - 1, by omega⟩
    have h0 : oracle a = .already_exists := by
      have := hc 0 (Nat.succ_pos j)
      rwa [Nat.add_zero] at this
    have hc1 : ∀ i, i < j → oracle (a + 1 + i) = .already_exists := by
      intro i hi
      have := hc (i + 1) (by omega)
      rwa [show a + (i + 1) = a + 1 + i by omega] at this
    have hs1 : oracle (a + 1 + j) = .success := by
      rwa [show a + 1 + j = a + (j + 1) by omega]
    have hrec := ih (a + 1) f hc1 hs1 (by omega)
    simp [nameLoop, h0, hrec]
    omega

/-- The name loop returns false after exactly j + 1 attempts when the first j
attempts collide and attempt j hits a non-collision failure; no further
attempt is made. -/
theorem nameLoop_other (oracle : Nat → SendNameStatus) :
    ∀ (j a fuel : Nat), (∀ i, i < j → oracle (a + i) = .already_exists) →
      oracle (a + j) = .other_error → j < fuel →
      nameLoop oracle fuel a = some (false, a + j + 1) := by
  intro j
  induction j with
  | zero =>
    intro a fuel _ hs hf
    obtain ⟨f, rfl⟩ : ∃ f, fuel = f + 1 := ⟨fuel - 1, by omega⟩
    rw [Nat.add_zero] at hs
    simp [nameLoop, hs]
  | succ j ih =>
    intro a fuel hc hs hf
    obtain ⟨f, rfl⟩ : ∃ f, fuel = f + 1 := ⟨fuel - 1, by omega⟩
    have h0 : oracle a = .already_exists := by
      have := hc 0 (Nat.succ_pos j)
      rwa [Nat.add_zero] at this
    have hc1 : ∀ i, i < j → oracle (a + 1 + i) = .already_exists := by
      intro i hi
      have := hc (i + 1) (by omega)
      rwa [show a + (i + 1) = a + 1 + i by omega] at this
    have hs1 : oracle (a + 1 + j) = .other_error := by
      rwa [show a + 1 + j = a + (j + 1) by omega]
    have hrec := ih (a + 1) f hc1 hs1 (by omega)
    simp [nameLoop, h0, hrec]
    omega

/-- A successful allocation returns a name not yet in the generated list and
appends exactly that name. -/
theorem gen_fresh (rs : List Nat) :
    ∀ (g : List String) (u : String) (g2 : List String) (rs2 : List Nat),
      generate_unused_username rs g = some (u, g2, rs2) → u ∉ g ∧ g2 = g ++ [u] := by
  induction rs with
  | nil =>
    intro g u g2 rs2 h
    simp [generate_unused_username] at h
  | cons r rs ih =>
    intro g u g2 rs2 h
    by_cases hm : mkUsername (r % 10000) ∈ g
    · rw [generate_unused_username] at h
      simp only [if_pos hm] at h
      exact ih g u g2 rs2 h
    · rw [generate_unused_username] at h
      simp only [if_neg hm, Option.some.injEq, Prod.mk.injEq] at h
      obtain ⟨h1, h2, _⟩ := h
      subst h1
      exact ⟨hm, h2.symm⟩

/-- Iterated allocation grows the generated list by one fresh name per call,
preserving distinctness. -/
theorem allocateNames_spec :
    ∀ (n : Nat) (rs : List Nat) (g g2 : List String) (rs2 : List Nat),
      allocateNames n rs g = some (g2, rs2) →
      g2.length = g.length + n ∧ (g.Nodup → g2.Nodup) := by
  intro n
  induction n with
  | zero =>
    intro rs g g2 rs2 h
    simp [allocateNames] at h
    obtain ⟨h1, _⟩ := h
    subst h1
    simp
  | succ n ih =>
    intro rs g g2 rs2 h
    rw [allocateNames] at h
    cases hgen : generate_unused_username rs g with
    | none => rw [hgen] at h; exact absurd h (by simp)
    | some val =>
      obtain ⟨u, g1, rs1⟩ := val
      rw [hgen] at h
      obtain ⟨hfresh, hg1⟩ := gen_fresh rs g u g1 rs1 hgen
      obtain ⟨hl, hnd⟩ := ih rs1 g1 g2 rs2 h
      subst hg1
      refine ⟨by simp at hl ⊢; omega, fun hg => hnd ?_⟩
      rw [List.nodup_append]
      refine ⟨hg, List.nodup_singleton u, ?_⟩
      intro a ha hb
      rw [List.mem_singleton] at hb
      subst hb
      exact hfresh ha

/-- When every candidate the generator can emit is already claimed, the
allocation loop consumes every supplied draw without returning. -/
theorem gen_exhausted (g : List String) (hg : ∀ r : Nat, mkUsername (r % 10000) ∈ g) :
    ∀ rs : List Nat, generate_unused_username rs g = none := by
  intro rs
  induction rs with
  | nil => rfl
  | cons r rs ih => simp [generate_unused_username, hg r, ih]

/-- Every candidate built from a draw lies in the 10000-element candidate
space. -/
theorem mem_allUsernames (r : Nat) : mkUsername (r % 10000) ∈ allUsernames := by
  unfold allUsernames
  exact List.mem_map.mpr ⟨r % 10000, List.mem_range.mpr (Nat.mod_lt r (by norm_num)), rfl⟩

/-! Claim theorems. -/

/-- Claim C1, counterexample: in a run with N = 2 agents where agent 1's
prepare() returned false (M = 1 < N), run() starts the voting phase for both
agents - votingStarted is the full index list [0, 1], and in particular agent
1, whose prepare returned false, is started - contradicting the claim that
voting starts only for the Joined subset. -/
theorem C1_counterexample :
    (run [true, false] (fun _ => true)).votingStarted = [0, 1] ∧
    1 ∈ (run [true, false] (fun _ => true)).votingStarted ∧
    [true, false][1]? = some false := by decide

/-- Claim C1, amended: when at least one agent joins, run() reports partial
success with the count of joined agents (whenever not all joined) and does not
treat the run as a total failure, but it starts the voting phase for all N
agents - the full index range - including every agent whose prepare()
returned false. -/
theorem C1_partial_starts_all (results : List Bool) (closeOk : Nat → Bool)
    (hsome : results.any id = true) :
    (run results closeOk).votingStarted = List.range results.length ∧
    (run results closeOk).totalFailure = false ∧
    (results.all id = false →
      (run results closeOk).partialSuccessCount =
        some (results.count true, results.length)) := by
  refine ⟨by simp [run, hsome], by simp [run, hsome], fun hall => ?_⟩
  simp [run, hsome, hall]

/-- Claim C1, witness: the amended theorem applied to the concrete run with
prepare results [true, false] in which every quit() succeeds. -/
theorem C1_witness :
    ([true, false].any id = true) ∧
    ((run [true, false] (fun _ => true)).votingStarted =
        List.range ([true, false] : List Bool).length ∧
      (run [true, false] (fun _ => true)).totalFailure = false ∧
      (([true, false] : List Bool).all id = false →
        (run [true, false] (fun _ => true)).partialSuccessCount =
          some (([true, false] : List Bool).count true, ([true, false] : List Bool).length))) :=
  ⟨by decide, C1_partial_starts_all [true, false] (fun _ => true) (by decide)⟩

/-- Claim C2, counterexample: in a run with two joined agents where agent 0's
driver.quit() raises, cleanup invokes quit only on agent 0, agent 1's session
is never closed, and the exception propagates out of run() - contradicting the
claim that every session is closed exactly once and teardown errors are never
propagated. -/
theorem C2_counterexample :
    (run [true, true] (fun i => i != 0)).quitCalls = [0] ∧
    1 ∉ (run [true, true] (fun i => i != 0)).quitCalls ∧
    (run [true, true] (fun i => i != 0)).raisedFrom = some 0 := by decide

/-- Claim C2, amended: provided no driver.quit() raises, by the end of run()
every agent's session is closed exactly once - quit is invoked on precisely
the index range of the bot list, with no duplicates - and no teardown error
propagates, for any combination of per-agent prepare outcomes; a raising
quit() however aborts the teardown loop and propagates out of run(). -/
theorem C2_teardown_no_raise (results : List Bool) (closeOk : Nat → Bool)
    (h : ∀ i, closeOk i = true) :
    (run results closeOk).quitCalls = List.range results.length ∧
    (run results closeOk).quitCalls.Nodup ∧
    (run results closeOk).raisedFrom = none := by
  have hc := cleanup_all_ok closeOk (List.range results.length) fun i _ => h i
  by_cases hs : results.any id = true <;>
    simp [run, hs, hc, List.nodup_range]

/-- Claim C2, witness: the amended theorem applied to a concrete run of two
agents whose quits all succeed. -/
theorem C2_witness :
    (∀ i : Nat, (fun _ : Nat => true) i = true) ∧
    ((run [true, true] (fun _ => true)).quitCalls =
        List.range ([true, true] : List Bool).length ∧
      (run [true, true] (fun _ => true)).quitCalls.Nodup ∧
      (run [true, true] (fun _ => true)).raisedFrom = none) :=
  ⟨fun _ => rfl, C2_teardown_no_raise [true, true] (fun _ => true) fun _ => rfl⟩

/-- Claim C3, counterexample: when the lobby-code input field is not found
within the 5 s bounded wait, prepare() evaluates to the propagated
TimeoutException, not to a false return - contradicting the claim that
prepare returns false rather than propagating an exception. -/
theorem C3_counterexample :
    prepare false (fun _ => SendNameStatus.success) 5 = .error .timeoutException ∧
    prepare false (fun _ => SendNameStatus.success) 5 ≠ .ok (some false) :=
  ⟨rfl, fun h => nomatch h⟩

/-- Claim C3, amended: if the lobby-code input field is not found within the
bounded wait, the TimeoutException raised inside join_lobby propagates
uncaught out of prepare() to its caller, whatever the name-submission backend
would answer and however much fuel the name loop has; prepare never reaches a
false return on this path. -/
theorem C3_timeout_propagates (oracle : Nat → SendNameStatus) (fuel : Nat) :
    prepare false oracle fuel = .error .timeoutException := rfl

/-- Claim C4: the name-submission loop of prepare() exits only on success
(returning true) or other_error (returning false); collisions always re-enter.
With a backend colliding on the first K attempts then succeeding, prepare's
loop returns true after exactly K + 1 attempts; with a backend colliding on
the first J attempts then failing with a non-collision error, it returns false
after exactly J + 1 attempts, never retrying past that failure. -/
theorem C4_collision_retry (oracle oracle2 : Nat → SendNameStatus) (K J fuel : Nat)
    (hcoll : ∀ i, i < K → oracle i = .already_exists) (hsucc : oracle K = .success)
    (hcoll2 : ∀ i, i < J → oracle2 i = .already_exists) (herr : oracle2 J = .other_error)
    (hfK : K < fuel) (hfJ : J < fuel) :
    nameLoop oracle fuel 0 = some (true, K + 1) ∧
    nameLoop oracle2 fuel 0 = some (false, J + 1) := by
  constructor
  · have := nameLoop_success oracle K 0 fuel
      (fun i hi => by rw [Nat.zero_add]; exact hcoll i hi)
      (by rw [Nat.zero_add]; exact hsucc) hfK
    simpa using this
  · have := nameLoop_other oracle2 J 0 fuel
      (fun i hi => by rw [Nat.zero_add]; exact hcoll2 i hi)
      (by rw [Nat.zero_add]; exact herr) hfJ
    simpa using this

/-- Claim C4, witness: a backend that collides twice then succeeds yields
true after exactly 3 attempts; one that collides once then hits a
non-collision error yields false after exactly 2 attempts. -/
theorem C4_witness :
    ((∀ i, i < 2 → (fun n => if n < 2 then SendNameStatus.already_exists
        else SendNameStatus.success) i = SendNameStatus.already_exists) ∧
      (fun n => if n < 2 then SendNameStatus.already_exists
        else SendNameStatus.success) 2 = SendNameStatus.success ∧
      (∀ i, i < 1 → (fun n => if n < 1 then SendNameStatus.already_exists
        else SendNameStatus.other_error) i = SendNameStatus.already_exists) ∧
      (fun n => if n < 1 then SendNameStatus.already_exists
        else SendNameStatus.other_error) 1 = SendNameStatus.other_error ∧
      2 < 5 ∧ 1 < 5) ∧
    (nameLoop (fun n => if n < 2 then SendNameStatus.already_exists
        else SendNameStatus.success) 5 0 = some (true, 2 + 1) ∧
      nameLoop (fun n => if n < 1 then SendNameStatus.already_exists
        else SendNameStatus.other_error) 5 0 = some (false, 1 + 1)) :=
  ⟨⟨by decide, by decide, by decide, by decide, by decide, by decide⟩,
    C4_collision_retry
      (fun n => if n < 2 then SendNameStatus.already_exists else SendNameStatus.success)
      (fun n => if n < 1 then SendNameStatus.already_exists else SendNameStatus.other_error)
      2 1 5 (by decide) (by decide) (by decide) (by decide) (by decide) (by decide)⟩

/-- Claim C5, counterexample: with a page that never reaches game over, never
shows a gameblock URL and never presents answer options, and a voting flag
that is cleared from time 1 onwards, the voting loop is still running after
10 polling steps (it is inside vote()'s option-polling loop, which never reads
the flag) - contradicting the claim that a stop signal delivered at any point
of the loop causes exit within one polling granularity. -/
theorem C5_counterexample :
    vote_loop (fun _ => Page.mk false false none) (fun t => t == 0) 10 0 = none ∧
    (fun t : Nat => t == 0) 1 = false := by decide

/-- Claim C5, amended: the stop signal is observed only in the guard of
vote_loop, between iterations: if the voting flag is false when the guard is
evaluated, the loop exits immediately at that point; but a clear delivered
while vote() is polling for answer options or while wait_for_new_round is
waiting has no effect until those inner loops finish on their own
(game over, options present, or round advance). -/
theorem C5_stop_at_guard (env : Nat → Page) (voting : Nat → Bool) (fuel t : Nat)
    (hstop : voting t = false) (hfuel : 0 < fuel) :
    vote_loop env voting fuel t = some t := by
  obtain ⟨f, rfl⟩ : ∃ f, fuel = f + 1 := ⟨fuel - 1, by omega⟩
  simp [vote_loop, hstop]

/-- Claim C5, witness: the amended theorem at a concrete page and an
always-false voting flag. -/
theorem C5_witness :
    ((fun _ : Nat => false) 0 = false ∧ 0 < 3) ∧
    vote_loop (fun _ => Page.mk false true (some 4)) (fun _ => false) 3 0 = some 0 :=
  ⟨⟨rfl, by decide⟩,
    C5_stop_at_guard (fun _ => Page.mk false true (some 4)) (fun _ => false) 3 0 rfl (by decide)⟩

/-- Claim C6, counterexample: the allocator calls run concurrently in
ThreadPool workers and the membership check and append are separate atomic
actions on the shared list with no lock, so two calls can interleave as
check-A, check-B, append-A, append-B: starting from the empty claimed set,
with both threads drawing 0, both calls pass the membership test before
either appends, and both return the very same name user0000 - two agents
share a display name and the shared list ends with a duplicate -
contradicting the claim that every call returns a name no previous call has
returned. -/
theorem C6_counterexample :
    allocRace [true, false, true, false] [] (AllocThread.ready [0]) (AllocThread.ready [0]) =
      (["user0000", "user0000"], AllocThread.done "user0000", AllocThread.done "user0000") ∧
    ¬ (["user0000", "user0000"] : List String).Nodup := by decide

/-- Claim C6, amended: only when the allocator calls do not interleave - each
call's membership check and append complete before the next call's check
runs - does every call return a name not previously claimed, appending it
before returning; N such non-interleaved allocations from the empty claimed
set yield exactly N pairwise distinct display names, whatever random draws
occur (including draws that collide with already-claimed names).  The
unguarded check-then-append does not enforce this: interleaved calls can
duplicate names. -/
theorem C6_names_distinct (N : Nat) (rs : List Nat) (names : List String) (rest : List Nat)
    (h : allocateNames N rs [] = some (names, rest)) :
    names.length = N ∧ names.Nodup := by
  obtain ⟨hl, hnd⟩ := allocateNames_spec N rs [] names rest h
  exact ⟨by simpa using hl, hnd List.nodup_nil⟩

/-- Claim C6, witness: two allocations from draws [0, 0, 1] - the second draw
collides with the already-claimed user0000 and is retried - produce the two
distinct names user0000 and user0001. -/
theorem C6_witness :
    allocateNames 2 [0, 0, 1] [] = some (["user0000", "user0001"], []) ∧
    ((["user0000", "user0001"] : List String).length = 2 ∧
      (["user0000", "user0001"] : List String).Nodup) :=
  ⟨by decide, C6_names_distinct 2 [0, 0, 1] ["user0000", "user0001"] [] (by decide)⟩

/-- Claim C7, counterexample: with the whole 10000-candidate space already
claimed, the allocation loop consumes a draw of every single candidate value
0..9999 without returning and without any Exhausted error - the code has no
error path at all; it simply keeps looping - contradicting the claim that an
exhausted candidate space makes the call fail with an Exhausted error. -/
theorem C7_counterexample :
    generate_unused_username (List.range 10000) allUsernames = none :=
  gen_exhausted allUsernames mem_allUsernames (List.range 10000)

/-- Claim C7, amended: when the candidate space is exhausted (every one of
the 10000 candidates is already claimed), BotManager.__generate_unused_username
never terminates: for every finite sequence of random draws, however long, the
while loop is still running; no Exhausted error exists in the code. -/
theorem C7_exhausted_loops_forever (rs : List Nat) :
    generate_unused_username rs allUsernames = none :=
  gen_exhausted allUsernames mem_allUsernames rs

/-- Claim C8: for every option_count in {1, 2, 3, 4}, the vote-choice function
handed to each bot returns an index in [0, option_count) for every random
draw, and it is uniform over the option count: on one full period of the
underlying uniform draw, each index in [0, option_count) is hit exactly
once. -/
theorem C8_vote_bounds_uniform (n : Nat) (h : n = 1 ∨ n = 2 ∨ n = 3 ∨ n = 4) :
    (∀ r, vote_function r n < n) ∧
    (∀ k, k < n → ((List.range n).filter (fun r => vote_function r n == k)).length = 1) := by
  rcases h with h | h | h | h <;> subst h <;>
    exact ⟨fun r => by simp [vote_function, randint]; omega, by decide⟩

/-- Claim C8, witness: the theorem at option_count = 4. -/
theorem C8_witness :
    (4 = 1 ∨ 4 = 2 ∨ 4 = 3 ∨ 4 = 4) ∧
    ((∀ r, vote_function r 4 < 4) ∧
      (∀ k, k < 4 → ((List.range 4).filter (fun r => vote_function r 4 == k)).length = 1)) :=
  ⟨by decide, C8_vote_bounds_uniform 4 (by decide)⟩

/-- Claim C9, counterexample: in a run where provisioning succeeded but zero
agents joined the lobby ([false, false] has no true entry), the process exit
code is 0, not non-zero - run() logs total failure, performs cleanup and
returns normally, and main never calls sys.exit - contradicting the claim
that zero successful joins exit non-zero. -/
theorem C9_counterexample :
    mainExitCode true [false, false] (fun _ => true) = 0 ∧
    ([false, false].any id) = false := by decide

/-- Claim C9, amended: the process exits non-zero when provisioning fails
(via an uncaught AttributeError in run(), since __init__ returned before
initialising its fields - not via a deliberate exit path), and exits zero
otherwise whenever teardown raises nothing, regardless of how many agents
joined - in particular it exits zero even when zero agents joined. -/
theorem C9_exit_codes (results : List Bool) (closeOk : Nat → Bool)
    (h : ∀ i, closeOk i = true) :
    mainExitCode false results closeOk = 1 ∧
    mainExitCode true results closeOk = 0 := by
  have hc := cleanup_all_ok closeOk (List.range results.length) fun i _ => h i
  refine ⟨rfl, ?_⟩
  by_cases hs : results.any id = true <;> simp [mainExitCode, run, hs, hc]

/-- Claim C9, witness: the amended theorem at the concrete total-join-failure
run with all quits succeeding. -/
theorem C9_witness :
    (∀ i : Nat, (fun _ : Nat => true) i = true) ∧
    (mainExitCode false [false, false] (fun _ => true) = 1 ∧
      mainExitCode true [false, false] (fun _ => true) = 0) :=
  ⟨fun _ => rfl, C9_exit_codes [false, false] (fun _ => true) fun _ => rfl⟩

/-- Claim C10: for every file system in which the expected chromedriver
executable does not exist at the cache path, should_download propagates the
FileNotFoundError of os.path.getsize instead of returning a boolean; hence
BotManager initialisation on a fresh cache reports provisioning failure and
never reaches the download branch of install. -/
theorem C10_missing_executable (fs : String → Option Nat) (remoteSize : Nat)
    (isWindows : Bool) (version : String) (re_download : Bool)
    (h : fs (get_executable_path isWindows ".chromedriver" version) = none) :
    should_download fs remoteSize isWindows ".chromedriver" version = .error .fileNotFound ∧
    managerInit fs remoteSize isWindows version re_download = ⟨true, false⟩ := by
  have hsd : should_download fs remoteSize isWindows ".chromedriver" version =
      .error .fileNotFound := by
    simp [should_download, getsize, h]
  exact ⟨hsd, by simp [managerInit, hsd]⟩

/-- Claim C10, witness: the theorem at the completely empty file system (a
fresh, absent cache directory) on a Linux host. -/
theorem C10_witness :
    ((fun _ : String => (none : Option Nat))
        (get_executable_path false ".chromedriver" "140.0.7339.80") = none) ∧
    (should_download (fun _ => none) 7 false ".chromedriver" "140.0.7339.80" =
        .error .fileNotFound ∧
      managerInit (fun _ => none) 7 false "140.0.7339.80" false = ⟨true, false⟩) :=
  ⟨rfl, C10_missing_executable (fun _ => none) 7 false "140.0.7339.80" false rfl⟩

end Kahooter
